import Mathlib

/-!
Verification development for cppcheck's `lib/platform.h` (class `Platform`):
the platform descriptor, its two's-complement range arithmetic, the
range-membership queries, the identity-tag string conversion, and models of
the loader and limits-define generator.

Machine integers are embedded as `Nat`/`Int`. The `assert(bit > 0)`
precondition of the private range helpers is embedded by returning
`Option`: `none` models the violated assertion (abort). The `std::uint8_t`
parameter type means a caller-side argument is reduced mod 256 before entry;
this matters only for `unsignedCharMax`, which passes `char_bit + 1`.
-/

set_option autoImplicit false

/-- Identity tag: C++ enum `Platform::Type`, underlying type `std::uint8_t`,
with enumerators Unspecified=0, Native=1, Win32A=2, Win32W=3, Win64=4,
Unix32=5, Unix64=6, File=7. -/
inductive PlatformType : Type where
  | Unspecified
  | Native
  | Win32A
  | Win32W
  | Win64
  | Unix32
  | Unix64
  | File
  deriving DecidableEq

/-- Numeric value of a valid tag under the `std::uint8_t` underlying type. -/
def PlatformType.toNat : PlatformType → Nat
  | .Unspecified => 0
  | .Native => 1
  | .Win32A => 2
  | .Win32W => 3
  | .Win64 => 4
  | .Unix32 => 5
  | .Unix64 => 6
  | .File => 7

/-- The platform descriptor: the data members of class `Platform`.
Widths are bits (`std::uint8_t` in the source, so values lie in 0..255),
sizes are bytes, `defaultSign` is one of the characters u, s, or the NUL
character for unknown. -/
structure Platform : Type where
  char_bit : Nat
  short_bit : Nat
  int_bit : Nat
  long_bit : Nat
  long_long_bit : Nat
  sizeof_bool : Nat
  sizeof_short : Nat
  sizeof_int : Nat
  sizeof_long : Nat
  sizeof_long_long : Nat
  sizeof_float : Nat
  sizeof_double : Nat
  sizeof_long_double : Nat
  sizeof_wchar_t : Nat
  sizeof_size_t : Nat
  sizeof_pointer : Nat
  defaultSign : Char
  type : PlatformType
  deriving DecidableEq

/-- `Platform::min_value(std::uint8_t bit)`:
`assert(bit > 0); if (bit >= 64) return LLONG_MIN; return -(1LL << (bit-1));`.
`LLONG_MIN = -2^63`; `none` models the violated assertion. For
`1 <= bit <= 63` the shift `1LL << (bit-1)` does not overflow. -/
def Platform.min_value (bit : Nat) : Option Int :=
  if bit = 0 then none
  else if 64 ≤ bit then some (-(2 ^ 63))
  else some (-(((1 <<< (bit - 1) : Nat) : Int)))

/-- `Platform::max_value(std::uint8_t bit)`:
`assert(bit > 0); if (bit >= 64) return (~0ULL) >> 1; return (1LL << (bit-1)) - 1LL;`.
`~0ULL` is the all-ones 64-bit pattern `2^64 - 1`. -/
def Platform.max_value (bit : Nat) : Option Int :=
  if bit = 0 then none
  else if 64 ≤ bit then some (((2 ^ 64 - 1 : Nat) >>> 1 : Nat) : Int)
  else some (((1 <<< (bit - 1) : Nat) : Int) - 1)

/-- `Platform::max_value_unsigned(std::uint8_t bit)`:
`assert(bit > 0); if (bit >= 64) return ~0ULL; return (1ULL << bit) - 1ULL;`. -/
def Platform.max_value_unsigned (bit : Nat) : Option Int :=
  if bit = 0 then none
  else if 64 ≤ bit then some ((2 ^ 64 - 1 : Nat) : Int)
  else some (((1 <<< bit : Nat) : Int) - 1)

/-- `Platform::isIntValue(MathLib::bigint value)`:
`value >= min_value(int_bit) && value <= max_value(int_bit)`. -/
def Platform.isIntValue (p : Platform) (value : Int) : Option Bool := do
  let lo ← Platform.min_value p.int_bit
  let hi ← Platform.max_value p.int_bit
  pure (decide (lo ≤ value) && decide (value ≤ hi))

/-- `Platform::isIntValue(MathLib::biguint value)`:
`const unsigned long long intMax = max_value(int_bit); return value <= intMax;`.
The signed-to-unsigned conversion of `intMax` is reduction mod `2^64`. -/
def Platform.isIntValueU (p : Platform) (value : Nat) : Option Bool := do
  let intMax ← Platform.max_value p.int_bit
  pure (decide (value ≤ (intMax % (2 ^ 64 : Int)).toNat))

/-- `Platform::isLongValue(MathLib::bigint value)`:
`value >= min_value(long_bit) && value <= max_value(long_bit)`. -/
def Platform.isLongValue (p : Platform) (value : Int) : Option Bool := do
  let lo ← Platform.min_value p.long_bit
  let hi ← Platform.max_value p.long_bit
  pure (decide (lo ≤ value) && decide (value ≤ hi))

/-- `Platform::isLongValue(MathLib::biguint value)`:
`const MathLib::biguint longMax = max_value(long_bit); return value <= longMax;`. -/
def Platform.isLongValueU (p : Platform) (value : Nat) : Option Bool := do
  let longMax ← Platform.max_value p.long_bit
  pure (decide (value ≤ (longMax % (2 ^ 64 : Int)).toNat))

/-- `Platform::isLongLongValue(MathLib::biguint value)`:
`const MathLib::biguint longLongMax = max_value(long_long_bit); return value <= longLongMax;`. -/
def Platform.isLongLongValueU (p : Platform) (value : Nat) : Option Bool := do
  let longLongMax ← Platform.max_value p.long_long_bit
  pure (decide (value ≤ (longLongMax % (2 ^ 64 : Int)).toNat))

/-- `Platform::isWindows()`:
`type == Type::Win32A || type == Type::Win32W || type == Type::Win64`. -/
def Platform.isWindows (p : Platform) : Bool :=
  p.type == PlatformType.Win32A ||
  p.type == PlatformType.Win32W ||
  p.type == PlatformType.Win64

/-- `Platform::toString(Type pt)`: the switch over the `std::uint8_t`-backed
enum, taken on the underlying numeric value. Values outside 0..7 reach
`default` and `throw std::runtime_error("unknown platform")`; the throw is
embedded as `Except.error`. -/
def Platform.toStringTag (pt : Nat) : Except String String :=
  match pt with
  | 0 => Except.ok "unspecified"
  | 1 => Except.ok "native"
  | 2 => Except.ok "win32A"
  | 3 => Except.ok "win32W"
  | 4 => Except.ok "win64"
  | 5 => Except.ok "unix32"
  | 6 => Except.ok "unix64"
  | 7 => Except.ok "platformFile"
  | _ => Except.error "unknown platform"

/-- `Platform::unsignedCharMax()`: `return max_value(char_bit + 1);`.
The argument `char_bit + 1` undergoes integer promotion and is then
converted back to the `std::uint8_t` parameter, i.e. reduced mod 256
(observable only at `char_bit = 255`, where the argument wraps to 0 and
the assertion inside `max_value` fails). -/
def Platform.unsignedCharMax (p : Platform) : Option Int :=
  Platform.max_value ((p.char_bit + 1) % 256)

/-- `Platform::signedCharMax()`: `return max_value(char_bit);`. -/
def Platform.signedCharMax (p : Platform) : Option Int :=
  Platform.max_value p.char_bit

/-- `Platform::signedCharMin()`: `return min_value(char_bit);`. -/
def Platform.signedCharMin (p : Platform) : Option Int :=
  Platform.min_value p.char_bit

/-- A concrete descriptor used to instantiate theorems: a common LP64
native configuration. -/
def Platform.sample : Platform :=
  { char_bit := 8, short_bit := 16, int_bit := 32, long_bit := 64,
    long_long_bit := 64,
    sizeof_bool := 1, sizeof_short := 2, sizeof_int := 4, sizeof_long := 8,
    sizeof_long_long := 8, sizeof_float := 4, sizeof_double := 8,
    sizeof_long_double := 16, sizeof_wchar_t := 4, sizeof_size_t := 8,
    sizeof_pointer := 8,
    defaultSign := 's', type := PlatformType.Native }

/-- Modelled from the spec: the PresetTable (spec section 4.3; its
implementation file is not under src/). Maps each settable preset label to
a concrete descriptor. Field values follow the historically standard ABI
the spec names (Win64 has 4-byte `long` while Unix64 has 8-byte `long`;
pointers are 4 bytes on the 32-bit variants and 8 on the 64-bit ones);
`platformFile` is not a settable preset. -/
def Platform.presetData (s : String) : Option Platform :=
  if s = "unspecified" then
    some { Platform.sample with type := PlatformType.Unspecified }
  else if s = "native" then
    some { Platform.sample with type := PlatformType.Native }
  else if s = "win32A" then
    some { Platform.sample with
           type := PlatformType.Win32A
           long_bit := 32
           sizeof_long := 4
           sizeof_wchar_t := 2
           sizeof_size_t := 4
           sizeof_pointer := 4 }
  else if s = "win32W" then
    some { Platform.sample with
           type := PlatformType.Win32W
           long_bit := 32
           sizeof_long := 4
           sizeof_wchar_t := 2
           sizeof_size_t := 4
           sizeof_pointer := 4 }
  else if s = "win64" then
    some { Platform.sample with
           type := PlatformType.Win64
           long_bit := 32
           sizeof_long := 4
           sizeof_wchar_t := 2 }
  else if s = "unix32" then
    some { Platform.sample with
           type := PlatformType.Unix32
           long_bit := 32
           sizeof_long := 4
           sizeof_size_t := 4
           sizeof_pointer := 4 }
  else if s = "unix64" then
    some { Platform.sample with type := PlatformType.Unix64 }
  else none

/-- Modelled from the spec: `Platform::set(platformstr, errstr, paths, debug)`
(PlatformLoader, spec section 4.4; its implementation file is not under
src/). Step 1: a known preset label delegates to the preset table and
succeeds. Step 2: otherwise the string is a file reference, tried in order
as the literal path, relative to each directory in `paths`, and relative to
the executable directory; the first successful open-and-parse wins and the
loaded descriptor gets the File tag. Step 3: `debug` only emits trace
lines and never affects the result. Step 4: on exhaustion the call fails
with a descriptive message and the descriptor is left unmodified. The file
system is abstracted as a lookup function from candidate path to parsed
descriptor; the result triple is (success, error message, descriptor). -/
def Platform.set (platformstr : String) (lookup : String → Option Platform)
    (paths : List String) (exeDir : String) (_debug : Bool) (p : Platform) :
    Bool × String × Platform :=
  match Platform.presetData platformstr with
  | some pd => (true, "", pd)
  | none =>
    let candidates :=
      platformstr ::
        (paths.map (fun dir => dir ++ "/" ++ platformstr) ++
          [exeDir ++ "/" ++ platformstr])
    match candidates.findSome? lookup with
    | some pd => (true, "", { pd with type := PlatformType.File })
    | none => (false, "unrecognized platform: " ++ platformstr, p)

/-- Modelled from the spec: `Platform::getLimitsDefines`
(LimitsDefineGenerator, spec section 4.5; its implementation file is not
under src/). A pure function of the descriptor and the standard, emitting
the climits macros as name-value pairs; the long-long family (`LLONG_MIN`,
`LLONG_MAX`, `ULLONG_MAX`) is emitted iff the standard is C99 or later. -/
def Platform.getLimitsDefines (p : Platform) (c99 : Bool) :
    List (String × Option Int) :=
  [("CHAR_BIT", some ((p.char_bit : Int))),
   ("SCHAR_MIN", Platform.min_value p.char_bit),
   ("SCHAR_MAX", Platform.max_value p.char_bit),
   ("UCHAR_MAX", Platform.max_value ((p.char_bit + 1) % 256)),
   ("SHRT_MIN", Platform.min_value p.short_bit),
   ("SHRT_MAX", Platform.max_value p.short_bit),
   ("USHRT_MAX", Platform.max_value_unsigned p.short_bit),
   ("INT_MIN", Platform.min_value p.int_bit),
   ("INT_MAX", Platform.max_value p.int_bit),
   ("UINT_MAX", Platform.max_value_unsigned p.int_bit),
   ("LONG_MIN", Platform.min_value p.long_bit),
   ("LONG_MAX", Platform.max_value p.long_bit),
   ("ULONG_MAX", Platform.max_value_unsigned p.long_bit)] ++
  (if c99 then
    [("LLONG_MIN", Platform.min_value p.long_long_bit),
     ("LLONG_MAX", Platform.max_value p.long_long_bit),
     ("ULLONG_MAX", Platform.max_value_unsigned p.long_long_bit)]
   else [])

lemma shiftLeft_one_cast (k : Nat) : ((1 <<< k : Nat) : Int) = 2 ^ k := by
  rw [Nat.shiftLeft_eq, one_mul]
  push_cast
  rfl

lemma Platform.min_value_small (b : Nat) (h1 : 1 ≤ b) (h2 : b ≤ 63) :
    Platform.min_value b = some (-(2 ^ (b - 1) : Int)) := by
  unfold Platform.min_value
  rw [if_neg (by omega), if_neg (by omega), shiftLeft_one_cast]

lemma Platform.min_value_large (b : Nat) (h : 64 ≤ b) :
    Platform.min_value b = some (-(2 ^ 63 : Int)) := by
  unfold Platform.min_value
  rw [if_neg (by omega), if_pos h]

lemma Platform.max_value_small (b : Nat) (h1 : 1 ≤ b) (h2 : b ≤ 63) :
    Platform.max_value b = some ((2 ^ (b - 1) : Int) - 1) := by
  unfold Platform.max_value
  rw [if_neg (by omega), if_neg (by omega), shiftLeft_one_cast]

lemma Platform.max_value_large (b : Nat) (h : 64 ≤ b) :
    Platform.max_value b = some ((2 ^ 63 : Int) - 1) := by
  unfold Platform.max_value
  rw [if_neg (by omega), if_pos h]
  decide

lemma Platform.max_value_unsigned_small (b : Nat) (h1 : 1 ≤ b) (h2 : b ≤ 63) :
    Platform.max_value_unsigned b = some ((2 ^ b : Int) - 1) := by
  unfold Platform.max_value_unsigned
  rw [if_neg (by omega), if_neg (by omega), shiftLeft_one_cast]

lemma Platform.max_value_unsigned_large (b : Nat) (h : 64 ≤ b) :
    Platform.max_value_unsigned b = some ((2 ^ 64 : Int) - 1) := by
  unfold Platform.max_value_unsigned
  rw [if_neg (by omega), if_pos h]
  decide

/-- C1: for every bit-width b with 1 ≤ b ≤ 63, `min_value` returns
-2^(b-1), `max_value` returns 2^(b-1) - 1 and `max_value_unsigned`
returns 2^b - 1; for every b ≥ 64 they return the minimum 64-bit signed
value -2^63, the maximum 64-bit signed value 2^63 - 1, and the all-ones
64-bit pattern 2^64 - 1. -/
theorem range_values (b : Nat) :
    (1 ≤ b → b ≤ 63 →
      Platform.min_value b = some (-(2 ^ (b - 1) : Int)) ∧
      Platform.max_value b = some ((2 ^ (b - 1) : Int) - 1) ∧
      Platform.max_value_unsigned b = some ((2 ^ b : Int) - 1)) ∧
    (64 ≤ b →
      Platform.min_value b = some (-(2 ^ 63 : Int)) ∧
      Platform.max_value b = some ((2 ^ 63 : Int) - 1) ∧
      Platform.max_value_unsigned b = some ((2 ^ 64 : Int) - 1)) :=
  ⟨fun h1 h2 =>
    ⟨Platform.min_value_small b h1 h2, Platform.max_value_small b h1 h2,
     Platform.max_value_unsigned_small b h1 h2⟩,
   fun h =>
    ⟨Platform.min_value_large b h, Platform.max_value_large b h,
     Platform.max_value_unsigned_large b h⟩⟩

/-- Witness for C1 at the concrete widths 32 and 64. -/
theorem range_values_witness :
    (Platform.min_value 32 = some (-(2 ^ 31 : Int)) ∧
     Platform.max_value 32 = some ((2 ^ 31 : Int) - 1) ∧
     Platform.max_value_unsigned 32 = some ((2 ^ 32 : Int) - 1)) ∧
    (Platform.min_value 64 = some (-(2 ^ 63 : Int)) ∧
     Platform.max_value 64 = some ((2 ^ 63 : Int) - 1) ∧
     Platform.max_value_unsigned 64 = some ((2 ^ 64 : Int) - 1)) :=
  ⟨(range_values 32).1 (by decide) (by decide), (range_values 64).2 (by decide)⟩

/-- C7: whenever the three range helpers succeed at width b, the minimum
is nonpositive and the maximum nonnegative for b in 1..64, and for b in
1..63 the unsigned maximum equals twice the signed maximum plus one. -/
theorem range_algebra (b : Nat) (lo hi u : Int)
    (hlo : Platform.min_value b = some lo)
    (hhi : Platform.max_value b = some hi)
    (hu : Platform.max_value_unsigned b = some u) :
    (b ≤ 64 → lo ≤ 0 ∧ 0 ≤ hi) ∧ (b ≤ 63 → u = 2 * hi + 1) := by
  have hb : 1 ≤ b := by
    by_contra h
    have hb0 : b = 0 := by omega
    rw [hb0] at hlo
    simp [Platform.min_value] at hlo
  by_cases hc : 64 ≤ b
  · refine ⟨fun _ => ?_, fun h63 => absurd h63 (by omega)⟩
    rw [Platform.min_value_large b hc] at hlo
    rw [Platform.max_value_large b hc] at hhi
    simp only [Option.some.injEq] at hlo hhi
    subst hlo hhi
    constructor <;> norm_num
  · have h63 : b ≤ 63 := by omega
    rw [Platform.min_value_small b hb h63] at hlo
    rw [Platform.max_value_small b hb h63] at hhi
    rw [Platform.max_value_unsigned_small b hb h63] at hu
    simp only [Option.some.injEq] at hlo hhi hu
    subst hlo hhi hu
    have hpos : (0 : Int) < 2 ^ (b - 1) := by positivity
    have hpow : (2 : Int) ^ b = 2 * 2 ^ (b - 1) := by
      conv_lhs => rw [show b = (b - 1) + 1 by omega]
      rw [pow_succ]
      ring
    exact ⟨fun _ => ⟨by omega, by omega⟩, fun _ => by rw [hpow]; ring⟩

/-- Witness for C7 at width 32. -/
theorem range_algebra_witness :
    (-(2 ^ 31 : Int) ≤ 0 ∧ 0 ≤ (2 ^ 31 : Int) - 1) ∧
    ((2 ^ 32 : Int) - 1 = 2 * ((2 ^ 31 : Int) - 1) + 1) :=
  ⟨(range_algebra 32 (-(2 ^ 31)) ((2 ^ 31) - 1) ((2 ^ 32) - 1)
      (by decide) (by decide) (by decide)).1 (by decide),
   (range_algebra 32 (-(2 ^ 31)) ((2 ^ 31) - 1) ((2 ^ 32) - 1)
      (by decide) (by decide) (by decide)).2 (by decide)⟩

lemma Platform.max_value_range (b : Nat) (m : Int)
    (h : Platform.max_value b = some m) : 0 ≤ m ∧ m < 2 ^ 64 := by
  unfold Platform.max_value at h
  by_cases h0 : b = 0
  · rw [if_pos h0] at h
    exact absurd h (by simp)
  · rw [if_neg h0] at h
    by_cases hc : 64 ≤ b
    · rw [if_pos hc] at h
      simp only [Option.some.injEq] at h
      subst h
      constructor <;> decide
    · rw [if_neg hc] at h
      simp only [Option.some.injEq] at h
      subst h
      rw [shiftLeft_one_cast]
      have h1 : (1 : Int) ≤ 2 ^ (b - 1) := by
        calc (1 : Int) = 2 ^ 0 := by norm_num
        _ ≤ 2 ^ (b - 1) := pow_le_pow_right₀ (by norm_num) (Nat.zero_le _)
      have hle : (2 : Int) ^ (b - 1) ≤ 2 ^ 63 :=
        pow_le_pow_right₀ (by norm_num) (by omega)
      have h63 : (2 : Int) ^ 63 < 2 ^ 64 := by norm_num
      constructor <;> linarith

/-- C2: the signed `isIntValue` returns true exactly when the value lies in
the closed interval between `min_value(int_bit)` and `max_value(int_bit)`;
with int_bit = 32 the boundary inputs 2147483647, 2147483648, -2147483648
and -2147483649 give true, false, true and false. -/
theorem isIntValue_range (p : Platform) (lo hi : Int) (v : Int)
    (hlo : Platform.min_value p.int_bit = some lo)
    (hhi : Platform.max_value p.int_bit = some hi) :
    (Platform.isIntValue p v = some true ↔ (lo ≤ v ∧ v ≤ hi)) ∧
    (p.int_bit = 32 →
      Platform.isIntValue p 2147483647 = some true ∧
      Platform.isIntValue p 2147483648 = some false ∧
      Platform.isIntValue p (-2147483648) = some true ∧
      Platform.isIntValue p (-2147483649) = some false) := by
  constructor
  · simp [Platform.isIntValue, hlo, hhi]
  · intro h32
    simp only [Platform.isIntValue, h32]
    refine ⟨?_, ?_, ?_, ?_⟩ <;> decide

/-- Witness for C2: the four boundary evaluations on a descriptor with
int_bit = 32. -/
theorem isIntValue_range_witness :
    Platform.isIntValue Platform.sample 2147483647 = some true ∧
    Platform.isIntValue Platform.sample 2147483648 = some false ∧
    Platform.isIntValue Platform.sample (-2147483648) = some true ∧
    Platform.isIntValue Platform.sample (-2147483649) = some false :=
  (isIntValue_range Platform.sample (-2147483648) 2147483647 0
    (by decide) (by decide)).2 rfl

/-- C3: each unsigned overload returns true exactly when the value is at
most the corresponding signed maximum reinterpreted as unsigned
(`max_value(int_bit)` / `max_value(long_bit)` / `max_value(long_long_bit)`);
no lower bound is ever consulted. -/
theorem isUnsignedValue_range (p : Platform) (m1 m2 m3 : Int) (v : Nat)
    (h1 : Platform.max_value p.int_bit = some m1)
    (h2 : Platform.max_value p.long_bit = some m2)
    (h3 : Platform.max_value p.long_long_bit = some m3) :
    (Platform.isIntValueU p v = some true ↔ (v : Int) ≤ m1) ∧
    (Platform.isLongValueU p v = some true ↔ (v : Int) ≤ m2) ∧
    (Platform.isLongLongValueU p v = some true ↔ (v : Int) ≤ m3) := by
  obtain ⟨ha1, hb1⟩ := Platform.max_value_range _ _ h1
  obtain ⟨ha2, hb2⟩ := Platform.max_value_range _ _ h2
  obtain ⟨ha3, hb3⟩ := Platform.max_value_range _ _ h3
  have e1 : m1 % (18446744073709551616 : Int) = m1 :=
    Int.emod_eq_of_lt ha1 (by norm_num at hb1; exact hb1)
  have e2 : m2 % (18446744073709551616 : Int) = m2 :=
    Int.emod_eq_of_lt ha2 (by norm_num at hb2; exact hb2)
  have e3 : m3 % (18446744073709551616 : Int) = m3 :=
    Int.emod_eq_of_lt ha3 (by norm_num at hb3; exact hb3)
  refine ⟨?_, ?_, ?_⟩
  · simp [Platform.isIntValueU, h1, e1, Int.le_toNat ha1]
  · simp [Platform.isLongValueU, h2, e2, Int.le_toNat ha2]
  · simp [Platform.isLongLongValueU, h3, e3, Int.le_toNat ha3]

/-- Witness for C3 on the sample descriptor at value 42. -/
theorem isUnsignedValue_range_witness :
    (Platform.isIntValueU Platform.sample 42 = some true ↔
      (42 : Int) ≤ 2147483647) ∧
    (Platform.isLongValueU Platform.sample 42 = some true ↔
      (42 : Int) ≤ (2 ^ 63 : Int) - 1) ∧
    (Platform.isLongLongValueU Platform.sample 42 = some true ↔
      (42 : Int) ≤ (2 ^ 63 : Int) - 1) :=
  isUnsignedValue_range Platform.sample 2147483647 ((2 ^ 63) - 1)
    ((2 ^ 63) - 1) 42 (by decide) (by decide) (by decide)

/-- C4: `unsignedCharMax` is computed as `max_value(char_bit + 1)` (the
width-plus-one formula); with char_bit = 8 it equals `max_value 9`, which
is 255. -/
theorem unsignedCharMax_formula (p : Platform) :
    (p.char_bit ≤ 254 →
      Platform.unsignedCharMax p = Platform.max_value (p.char_bit + 1)) ∧
    (p.char_bit = 8 →
      Platform.unsignedCharMax p = Platform.max_value 9 ∧
      Platform.unsignedCharMax p = some 255) := by
  constructor
  · intro h
    unfold Platform.unsignedCharMax
    rw [Nat.mod_eq_of_lt (by omega)]
  · intro h8
    unfold Platform.unsignedCharMax
    rw [h8]
    constructor <;> decide

/-- Witness for C4 on the sample descriptor, whose char_bit is 8. -/
theorem unsignedCharMax_formula_witness :
    Platform.unsignedCharMax Platform.sample = Platform.max_value 9 ∧
    Platform.unsignedCharMax Platform.sample = some 255 :=
  (unsignedCharMax_formula Platform.sample).2 rfl

/-- C10 counterexample: at char_bit = 255 the argument `char_bit + 1` wraps
to 0 in the `std::uint8_t` parameter, the `assert(bit > 0)` inside
`max_value` fails (embedded as `none`), and `unsignedCharMax` does not
return 2^63 - 1. -/
theorem unsignedCharMax_saturation_cex :
    Platform.unsignedCharMax { Platform.sample with char_bit := 255 } ≠
      some ((2 ^ 63 : Int) - 1) := by decide

/-- C10 (amended): for char_bit in 1..63 `unsignedCharMax` equals
`max_value_unsigned(char_bit)`; for char_bit in 64..254 the width-plus-one
formula saturates at 2^63 - 1 and differs from
`max_value_unsigned(char_bit) = 2^64 - 1`; at char_bit = 255 the argument
wraps to width 0 and the assertion fails. -/
theorem unsignedCharMax_vs_unsigned (p : Platform) :
    (1 ≤ p.char_bit → p.char_bit ≤ 63 →
      Platform.unsignedCharMax p =
        Platform.max_value_unsigned p.char_bit) ∧
    (64 ≤ p.char_bit → p.char_bit ≤ 254 →
      Platform.unsignedCharMax p = some ((2 ^ 63 : Int) - 1) ∧
      Platform.max_value_unsigned p.char_bit = some ((2 ^ 64 : Int) - 1) ∧
      Platform.unsignedCharMax p ≠
        Platform.max_value_unsigned p.char_bit) ∧
    (p.char_bit = 255 → Platform.unsignedCharMax p = none) := by
  refine ⟨fun h1 h63 => ?_, fun h64 h254 => ?_, fun h255 => ?_⟩
  · unfold Platform.unsignedCharMax
    rw [Nat.mod_eq_of_lt (by omega)]
    by_cases hc : p.char_bit = 63
    · rw [hc]
      decide
    · rw [Platform.max_value_small (p.char_bit + 1) (by omega) (by omega),
          Platform.max_value_unsigned_small p.char_bit h1 h63]
      norm_num
  · unfold Platform.unsignedCharMax
    rw [Nat.mod_eq_of_lt (by omega), Platform.max_value_large _ (by omega),
        Platform.max_value_unsigned_large _ (by omega)]
    refine ⟨rfl, rfl, by decide⟩
  · unfold Platform.unsignedCharMax
    rw [h255]
    decide

/-- Witness for the amended C10 at char_bit = 8 (agreement) and
char_bit = 64 (disagreement). -/
theorem unsignedCharMax_vs_unsigned_witness :
    Platform.unsignedCharMax Platform.sample =
      Platform.max_value_unsigned Platform.sample.char_bit ∧
    Platform.unsignedCharMax { Platform.sample with char_bit := 64 } ≠
      Platform.max_value_unsigned
        ({ Platform.sample with char_bit := 64 } : Platform).char_bit :=
  ⟨(unsignedCharMax_vs_unsigned Platform.sample).1 (by decide) (by decide),
   ((unsignedCharMax_vs_unsigned { Platform.sample with char_bit := 64 }).2.1
      (by decide) (by decide)).2.2⟩

/-- C5: `toString` maps each of the eight valid identity tags to its fixed
label, and every tag value outside 0..7 to the thrown runtime error
"unknown platform" rather than any sentinel string. -/
theorem toStringTag_spec :
    Platform.toStringTag PlatformType.Unspecified.toNat =
      Except.ok "unspecified" ∧
    Platform.toStringTag PlatformType.Native.toNat = Except.ok "native" ∧
    Platform.toStringTag PlatformType.Win32A.toNat = Except.ok "win32A" ∧
    Platform.toStringTag PlatformType.Win32W.toNat = Except.ok "win32W" ∧
    Platform.toStringTag PlatformType.Win64.toNat = Except.ok "win64" ∧
    Platform.toStringTag PlatformType.Unix32.toNat = Except.ok "unix32" ∧
    Platform.toStringTag PlatformType.Unix64.toNat = Except.ok "unix64" ∧
    Platform.toStringTag PlatformType.File.toNat =
      Except.ok "platformFile" ∧
    ∀ n : Nat, 8 ≤ n →
      Platform.toStringTag n = Except.error "unknown platform" := by
  refine ⟨rfl, rfl, rfl, rfl, rfl, rfl, rfl, rfl, ?_⟩
  intro n h
  rcases n with _|n; · omega
  rcases n with _|n; · omega
  rcases n with _|n; · omega
  rcases n with _|n; · omega
  rcases n with _|n; · omega
  rcases n with _|n; · omega
  rcases n with _|n; · omega
  rcases n with _|n; · omega
  rfl

/-- Witness for C5 at the out-of-range tag value 12. -/
theorem toStringTag_spec_witness :
    Platform.toStringTag 12 = Except.error "unknown platform" :=
  toStringTag_spec.2.2.2.2.2.2.2.2 12 (by decide)

/-- C9: `isWindows` is true exactly when the identity tag is Win32A, Win32W
or Win64; on Unspecified, Native, Unix32, Unix64 and File it is false. -/
theorem isWindows_spec (p : Platform) :
    (Platform.isWindows p = true ↔
      (p.type = PlatformType.Win32A ∨ p.type = PlatformType.Win32W ∨
       p.type = PlatformType.Win64)) ∧
    ((p.type = PlatformType.Unspecified ∨ p.type = PlatformType.Native ∨
      p.type = PlatformType.Unix32 ∨ p.type = PlatformType.Unix64 ∨
      p.type = PlatformType.File) → Platform.isWindows p = false) := by
  cases h : p.type <;> simp only [Platform.isWindows, h] <;> decide

/-- Witness for C9: a descriptor tagged Unspecified is not Windows. -/
theorem isWindows_spec_witness :
    Platform.isWindows
      { Platform.sample with type := PlatformType.Unspecified } = false :=
  (isWindows_spec
    { Platform.sample with type := PlatformType.Unspecified }).2 (Or.inl rfl)

/-- C8: the limits-define output for a pre-C99 standard contains none of
the long-long macros, while the output for C99 or later contains
LLONG_MIN, LLONG_MAX and ULLONG_MAX. -/
theorem getLimitsDefines_longlong (p : Platform) :
    ("LLONG_MIN" ∉ (Platform.getLimitsDefines p false).map Prod.fst ∧
     "LLONG_MAX" ∉ (Platform.getLimitsDefines p false).map Prod.fst ∧
     "ULLONG_MAX" ∉ (Platform.getLimitsDefines p false).map Prod.fst) ∧
    ("LLONG_MIN" ∈ (Platform.getLimitsDefines p true).map Prod.fst ∧
     "LLONG_MAX" ∈ (Platform.getLimitsDefines p true).map Prod.fst ∧
     "ULLONG_MAX" ∈ (Platform.getLimitsDefines p true).map Prod.fst) := by
  have hf : (Platform.getLimitsDefines p false).map Prod.fst =
      ["CHAR_BIT", "SCHAR_MIN", "SCHAR_MAX", "UCHAR_MAX", "SHRT_MIN",
       "SHRT_MAX", "USHRT_MAX", "INT_MIN", "INT_MAX", "UINT_MAX",
       "LONG_MIN", "LONG_MAX", "ULONG_MAX"] := rfl
  have ht : (Platform.getLimitsDefines p true).map Prod.fst =
      ["CHAR_BIT", "SCHAR_MIN", "SCHAR_MAX", "UCHAR_MAX", "SHRT_MIN",
       "SHRT_MAX", "USHRT_MAX", "INT_MIN", "INT_MAX", "UINT_MAX",
       "LONG_MIN", "LONG_MAX", "ULONG_MAX", "LLONG_MIN", "LLONG_MAX",
       "ULLONG_MAX"] := rfl
  rw [hf, ht]
  refine ⟨⟨?_, ?_, ?_⟩, ?_, ?_, ?_⟩ <;> decide

lemma findSome_eq_none {α β : Type} (f : α → Option β) (l : List α)
    (h : ∀ a, f a = none) : l.findSome? f = none := by
  induction l with
  | nil => rfl
  | cons a l ih => simp [List.findSome?_cons, h, ih]

/-- C6: when the platform string names no preset and no candidate path
resolves to a loadable description file, `set` returns failure with a
non-empty message and leaves the descriptor exactly as it was. -/
theorem set_unknown_platform (lookup : String → Option Platform)
    (paths : List String) (exeDir : String) (debug : Bool) (p : Platform)
    (h : ∀ c, lookup c = none) :
    (Platform.set "nonexistent-platform-xyz" lookup paths exeDir debug p).1
      = false ∧
    (Platform.set "nonexistent-platform-xyz" lookup paths exeDir debug p).2.1
      ≠ "" ∧
    (Platform.set "nonexistent-platform-xyz" lookup paths exeDir debug p).2.2
      = p := by
  have hp : Platform.presetData "nonexistent-platform-xyz" = none := by
    decide
  have hfind : ∀ l : List String, l.findSome? lookup = none :=
    fun l => findSome_eq_none lookup l h
  have hset : Platform.set "nonexistent-platform-xyz" lookup paths exeDir
      debug p =
      (false, "unrecognized platform: " ++ "nonexistent-platform-xyz", p) := by
    unfold Platform.set
    simp only [hp, hfind]
  rw [hset]
  refine ⟨rfl, ?_, rfl⟩
  show ("unrecognized platform: " ++ "nonexistent-platform-xyz" : String) ≠ ""
  decide

/-- Witness for C6: a concrete failing call with an empty file system. -/
theorem set_unknown_platform_witness :
    (Platform.set "nonexistent-platform-xyz" (fun _ => none) ["/tmp"]
      "/opt/app" false Platform.sample).1 = false ∧
    (Platform.set "nonexistent-platform-xyz" (fun _ => none) ["/tmp"]
      "/opt/app" false Platform.sample).2.1 ≠ "" ∧
    (Platform.set "nonexistent-platform-xyz" (fun _ => none) ["/tmp"]
      "/opt/app" false Platform.sample).2.2 = Platform.sample :=
  set_unknown_platform (fun _ => none) ["/tmp"] "/opt/app" false
    Platform.sample (fun _ => rfl)

